import Mathlib

/-!
# prerender-go: request classification and backend relay

A shallow embedding of `prerender/prerender.go`.

Go strings are modelled by `String` (sequences of code points, that is, Go
strings holding valid UTF-8; on those, byte-wise `HasSuffix`, `Contains` and
`Split` coincide with their code-point-wise versions).  Every string operation
is written over `String.data` so that it evaluates by plain reduction.

Standard-library behaviour that the package only calls (Unicode lower-casing,
URL escaping, the HTTP client, the gzip codec) and the two tables that are not
defined in `prerender.go` (`crawlerUserAgents`, `extensionsToIgnore`) are the
fields of `Env`; every general theorem holds for all of them.
-/

set_option autoImplicit false

namespace PrerenderGo

/-- Go `error` values; a possibly-nil error is an `Option Error`. -/
abbrev Error := String

/-- Byte strings read from and written to bodies. -/
abbrev Bytes := List UInt8

/-! ## package strings -/

namespace strings

/-- Go `strings.HasSuffix(s, suffix)`. -/
def HasSuffix (s suffix : String) : Bool :=
  suffix.data.isSuffixOf s.data

/-- The search loop of `strings.Contains` over code points. -/
def containsChars : List Char → List Char → Bool
  | [], sub => sub.isEmpty
  | c :: cs, sub => sub.isPrefixOf (c :: cs) || containsChars cs sub

/-- Go `strings.Contains(s, substr)`. -/
def Contains (s substr : String) : Bool :=
  containsChars s.data substr.data

/-- Go `strings.ToLower(s)`: `unicode.ToLower` applied to every code point. -/
def ToLower (toLowerRune : Char → Char) (s : String) : String :=
  String.mk (s.data.map toLowerRune)

/-- Pieces of a code-point list between occurrences of the separator `sep`;
never empty, as `strings.Split` with a one-character separator. -/
def splitChars (sep : Char) : List Char → List (List Char)
  | [] => [[]]
  | c :: cs =>
    if c = sep then [] :: splitChars sep cs
    else
      match splitChars sep cs with
      | [] => [[c]]
      | piece :: rest => (c :: piece) :: rest

/-- Go `strings.Split(s, sep)` for a one-character separator. -/
def Split (s : String) (sep : Char) : List String :=
  (splitChars sep s.data).map String.mk

end strings

/-! ## net/textproto and net/http headers -/

/-- Go `validHeaderFieldByte`: the token characters of RFC 7230. -/
def validHeaderFieldByte (c : Char) : Bool :=
  c.isAlphanum ||
    [33, 35, 36, 37, 38, 39, 42, 43, 45, 46, 94, 95, 96, 124, 126].contains c.toNat

/-- The rewriting loop of `canonicalMIMEHeaderKey`: the first letter and every
letter after a hyphen is upper-cased, every other letter lower-cased. -/
def canonicalChars : Bool → List Char → List Char
  | _, [] => []
  | upper, c :: cs =>
    let c1 := if upper then c.toUpper else c.toLower
    c1 :: canonicalChars (c1 = '-') cs

/-- Go `textproto.CanonicalMIMEHeaderKey`: a key holding a character that is not a
token character is returned unchanged. -/
def CanonicalMIMEHeaderKey (s : String) : String :=
  if s.data.all validHeaderFieldByte then String.mk (canonicalChars true s.data) else s

/-- Type `http.Header` is `map[string][]string`; `none` is an absent key. -/
abbrev Header := String → Option (List String)

namespace Header

/-- The empty header map. -/
def empty : Header := fun _ => none

/-- Go `Header.Get`: the first value of the canonicalised key, `""` without one. -/
def Get (h : Header) (key : String) : String :=
  match h (CanonicalMIMEHeaderKey key) with
  | some (v :: _) => v
  | _ => ""

/-- Go `Header.Set`: the canonicalised key is bound to the single value. -/
def Set (h : Header) (key value : String) : Header :=
  fun k => if k = CanonicalMIMEHeaderKey key then some [value] else h k

end Header

/-! ## net/url -/

/-- The escaping modes of `net/url` that `URL.String` uses. -/
inductive encoding where
  | encodePath
  | encodeHost
  | encodeFragment
  deriving DecidableEq, Repr

/-- The fields of `url.URL` read by `URL.String` and by this package.  `Opaque`,
`User`, `OmitHost` and the `RawFragment` hint are not modelled (they are empty
for the URLs considered). -/
structure URL where
  Scheme : String := ""
  Host : String := ""
  Path : String := ""
  RawPath : String := ""
  ForceQuery : Bool := false
  RawQuery : String := ""
  Fragment : String := ""
  deriving DecidableEq, Repr

/-- Value of a hexadecimal digit (`unhex`), `none` for any other character. -/
def unhex (c : Char) : Option Nat :=
  if c.isDigit then some (c.toNat - 48)
  else if 97 ≤ c.toNat ∧ c.toNat ≤ 102 then some (c.toNat - 97 + 10)
  else if 65 ≤ c.toNat ∧ c.toNat ≤ 70 then some (c.toNat - 65 + 10)
  else none

/-- Go `url.QueryUnescape` over code points: `%XX` is decoded, `+` becomes a
space, a malformed escape is an error (`none`).  A decoded byte is kept as the
code point of the same number, which is exact for comparisons with ASCII keys
and for emptiness. -/
def queryUnescape : List Char → Option (List Char)
  | [] => some []
  | '%' :: a :: b :: rest =>
    match unhex a, unhex b, queryUnescape rest with
    | some x, some y, some r => some (Char.ofNat (16 * x + y) :: r)
    | _, _, _ => none
  | '%' :: _ => none
  | '+' :: rest => (queryUnescape rest).map (fun r => ' ' :: r)
  | c :: rest => (queryUnescape rest).map (fun r => c :: r)

/-- One `key=value` piece of a query, cut at its first `=`. -/
def cutEq : List Char → List Char × List Char
  | [] => ([], [])
  | c :: cs => if c = '=' then ([], cs) else ((cutEq cs).1.cons c, (cutEq cs).2)

/-- The body of the loop of `url.parseQuery` for one `&`-separated piece: a
piece that is empty, holds a semicolon or has a malformed escape adds nothing. -/
def parseQueryPiece (piece : List Char) : List (String × String) :=
  if piece.contains ';' then []
  else if piece.isEmpty then []
  else
    match queryUnescape (cutEq piece).1, queryUnescape (cutEq piece).2 with
    | some k, some v => [(String.mk k, String.mk v)]
    | _, _ => []

/-- Go `url.ParseQuery` as the list of decoded pairs in order of appearance. -/
def parseQuery (query : String) : List (String × String) :=
  (strings.splitChars '&' query.data).flatMap parseQueryPiece

/-- Go `u.Query().Get(key)`: the first value parsed for the key, `""` without one. -/
def URL.QueryGet (u : URL) (key : String) : String :=
  match (parseQuery u.RawQuery).find? (fun kv => kv.1 = key) with
  | some kv => kv.2
  | none => ""

/-! ## Requests, responses, and the environment -/

/-- The fields of an inbound `*http.Request` that the package reads. -/
structure Request where
  Method : String
  URL : URL
  Host : String
  Header : Header

/-- The request built by `http.NewRequest` for the backend. -/
structure OutRequest where
  Method : String
  URL : String
  Header : Header

/-- A backend `*http.Response`: reading `Body` yields the bytes `Body` and then
ends with `BodyErr`, `none` being a clean end of the stream.  (`http.Client`
hands out no informational status other than 101.) -/
structure Response where
  StatusCode : Nat
  Header : Header
  Body : Bytes
  BodyErr : Option Error := none

/-- What the package takes from outside `prerender.go`. -/
structure Env where
  /-- The table `crawlerUserAgents`. -/
  crawlerUserAgents : List String
  /-- The table `extensionsToIgnore`. -/
  extensionsToIgnore : List String
  /-- Go `unicode.ToLower`. -/
  toLowerRune : Char → Char
  /-- The `escape` function of `net/url`. -/
  escape : encoding → String → String
  /-- The error of `url.Parse` inside `http.NewRequest`, `none` for a good URL. -/
  parseErr : String → Option Error
  /-- Go `http.DefaultClient.Do`. -/
  Do : OutRequest → Except Error Response
  /-- Whether the first string is a valid encoding of the second as a path,
  the test `EscapedPath` applies to `RawPath` and `Path`. -/
  validRawPath : String → String → Bool
  /-- Everything a `gzip.Writer` emits for an input, up to and with `Close`;
  the flag tells whether `Flush` was called before `Close`. -/
  gzipBytes : Bool → Bytes → Bytes
  /-- Reading a `gzip.Reader` over a stream of the given bytes and final read
  error to its end: the bytes produced and the error met (an error of
  `gzip.NewReader` produces no bytes). -/
  gunzipBytes : Bytes → Option Error → Bytes × Option Error

/-- Go `u.EscapedPath()`. -/
def URL.EscapedPath (env : Env) (u : URL) : String :=
  if u.RawPath ≠ "" ∧ env.validRawPath u.RawPath u.Path = true then u.RawPath
  else if u.Path = "*" then "*"
  else env.escape encoding.encodePath u.Path

/-- Go `u.String()`. -/
def URL.String (env : Env) (u : URL) : String :=
  let scheme := if u.Scheme ≠ "" then u.Scheme ++ ":" else ""
  let authority :=
    if u.Scheme ≠ "" ∨ u.Host ≠ "" then
      (if u.Host ≠ "" ∨ u.Path ≠ "" then "//" else "") ++
        (if u.Host ≠ "" then env.escape encoding.encodeHost u.Host else "")
    else ""
  let path := u.EscapedPath env
  let slash := if path ≠ "" ∧ path.data.head? ≠ some '/' ∧ u.Host ≠ "" then "/" else ""
  let buf := scheme ++ authority ++ slash
  let dot :=
    if buf = "" ∧ ((strings.splitChars '/' path.data).headD []).contains ':' then "./" else ""
  let query := if u.ForceQuery ∨ u.RawQuery ≠ "" then "?" ++ u.RawQuery else ""
  let fragment :=
    if u.Fragment ≠ "" then "#" ++ env.escape encoding.encodeFragment u.Fragment else ""
  buf ++ dot ++ path ++ query ++ fragment

/-! ## package prerender -/

/-- The `Options` struct. -/
structure Options where
  PrerenderURL : URL
  Token : String
  deriving DecidableEq, Repr

/-- The `Prerender` struct. -/
structure Prerender where
  Options : Options
  deriving DecidableEq, Repr

/-- Method `ShouldPrerender` (prerender.go, lines 61-101). -/
def Prerender.ShouldPrerender (env : Env) (_p : Prerender) (r : Request) : Bool :=
  let userAgent := strings.ToLower env.toLowerRune (r.Header.Get "User-Agent")
  if userAgent = "" then false
  else if r.Method ≠ "GET" ∧ r.Method ≠ "HEAD" then false
  else if r.Header.Get "X-Prerender" ≠ "" then false
  else
    let isRequestingPrerenderedPage := false
    let isRequestingPrerenderedPage :=
      if r.URL.QueryGet "_escaped_fragment_" ≠ "" then true else isRequestingPrerenderedPage
    let isRequestingPrerenderedPage :=
      if env.crawlerUserAgents.any (fun crawlerUserAgent =>
          strings.Contains (strings.ToLower env.toLowerRune userAgent)
            (strings.ToLower env.toLowerRune crawlerUserAgent))
      then true else isRequestingPrerenderedPage
    let isRequestingPrerenderedPage :=
      if r.Header.Get "X-Bufferbot" ≠ "" then true else isRequestingPrerenderedPage
    if env.extensionsToIgnore.any (fun extension =>
        strings.HasSuffix (strings.ToLower env.toLowerRune (r.URL.String env))
          (strings.ToLower env.toLowerRune extension))
    then false
    else isRequestingPrerenderedPage

/-- Whether `"scheme":"(http|https)"` matches at the start of the input, with
the text of its group.  The two alternatives cannot both match at one place. -/
def cfSchemeAt (cs : List Char) : Option String :=
  if "\"scheme\":\"http\"".data.isPrefixOf cs then some "http"
  else if "\"scheme\":\"https\"".data.isPrefixOf cs then some "https"
  else none

/-- The group of the leftmost match of `cfSchemeRegex` in the input. -/
def cfSchemeFind : List Char → Option String
  | [] => none
  | c :: cs =>
    match cfSchemeAt (c :: cs) with
    | some m => some m
    | none => cfSchemeFind cs

/-- Go `cfSchemeRegex.FindStringSubmatch(cf)`: the match and its group, or no
entries when the pattern does not occur.  Only `match[1]` is read. -/
def cfSchemeRegexFindStringSubmatch (cf : String) : Option String :=
  cfSchemeFind cf.data

/-- Method `buildAPIURL` (prerender.go, lines 169-194).  `p.Options.PrerenderURL` is a
pointer, so the assignment to `prerenderURL.Path` writes to the configuration;
the second component is the `Prerender` after the call. -/
def Prerender.buildAPIURL (env : Env) (p : Prerender) (r : Request) : String × Prerender :=
  let prerenderURL := p.Options.PrerenderURL
  let prerenderURL :=
    if !strings.HasSuffix (prerenderURL.String env) "/" then
      { prerenderURL with Path := prerenderURL.Path ++ "/" }
    else prerenderURL
  let protocol := r.URL.Scheme
  let cf := r.Header.Get "CF-Visitor"
  let protocol :=
    if cf ≠ "" then
      match cfSchemeRegexFindStringSubmatch cf with
      | some m => m
      | none => protocol
    else protocol
  let protocol := if protocol.data.length = 0 then "http" else protocol
  let fp := r.Header.Get "X-Forwarded-Proto"
  let protocol := if fp ≠ "" then (strings.Split fp ',').headD "" else protocol
  (prerenderURL.String env ++ protocol ++ "://" ++ r.Host ++ r.URL.Path ++ "?" ++ r.URL.RawQuery,
    { p with Options := { p.Options with PrerenderURL := prerenderURL } })

/-- The error `http.ErrBodyNotAllowed`. -/
def ErrBodyNotAllowed : Error := "http: request method or response status code does not allow body"

/-- Go `bodyAllowedForStatus` of `net/http`. -/
def bodyAllowedForStatus (status : Nat) : Bool :=
  if 100 ≤ status ∧ status ≤ 199 then false
  else if status = 204 then false
  else if status = 304 then false
  else true

/-- The `http.ResponseWriter` of a `net/http` server as the handler sees it:
the header map of `w.Header()`; once `WriteHeader` has run, the status and the
header map sent with it; the informational statuses sent before; the body bytes
that `Write` has accepted (for a HEAD request the server accepts them and sends
none); and `connErr`, the error every write to the connection meets, `none`
while the connection works.  The Content-Length accounting of `net/http` is left
out: the handler never sets that header. -/
structure ResponseWriter where
  header : Header
  wroteHeader : Bool
  status : Nat
  sentHeader : Header
  informational : List Nat
  body : Bytes
  connErr : Option Error

namespace ResponseWriter

/-- A writer nothing has been written to, on a working connection. -/
def fresh : ResponseWriter where
  header := Header.empty
  wroteHeader := false
  status := 0
  sentHeader := Header.empty
  informational := []
  body := []
  connErr := none

/-- Go `w.Header().Set(key, value)`. -/
def HeaderSet (w : ResponseWriter) (key value : String) : ResponseWriter :=
  { w with header := w.header.Set key value }

/-- Go `w.WriteHeader(code)`; `none` is the panic of `checkWriteHeaderCode` for a
code outside 100..999.  A call after the first is ignored, an informational
code other than 101 is sent at once and leaves the final header open, any other
code fixes the status and the headers. -/
def WriteHeader (w : ResponseWriter) (code : Nat) : Option ResponseWriter :=
  if w.wroteHeader then some w
  else if code < 100 ∨ code > 999 then none
  else if 100 ≤ code ∧ code ≤ 199 ∧ code ≠ 101 then
    some { w with informational := w.informational ++ [code] }
  else some { w with wroteHeader := true, status := code, sentHeader := w.header }

/-- Go `w.Write(b)`: an implicit `WriteHeader(200)` when none ran before; no bytes
are always accepted; a status that allows no body refuses the bytes with
`ErrBodyNotAllowed`; a failed connection refuses them with its error. -/
def Write (w : ResponseWriter) (b : Bytes) : ResponseWriter × Option Error :=
  let w :=
    if w.wroteHeader then w
    else { w with wroteHeader := true, status := 200, sentHeader := w.header }
  if b.isEmpty then (w, none)
  else if !bodyAllowedForStatus w.status then (w, some ErrBodyNotAllowed)
  else
    match w.connErr with
    | some err => (w, some err)
    | none => ({ w with body := w.body ++ b }, none)

/-- Go `io.Copy(w, src)` for a source that yields `b` and then ends with
`readErr`: no `Write` for a source without bytes; a write error is returned
before the read error. -/
def Copy (w : ResponseWriter) (b : Bytes) (readErr : Option Error) :
    ResponseWriter × Option Error :=
  if b.isEmpty then (w, readErr)
  else
    match (w.Write b).2 with
    | some err => ((w.Write b).1, some err)
    | none => ((w.Write b).1, readErr)

/-- Lines 136-143 with the deferred `gz.Close()`: `io.Copy(gz, res.Body)`,
`gz.Flush()` and `Close` on a `gzip.Writer` over `w`.  The writer emits its
header at the first `Write` with bytes, else at `Flush`, else at `Close`, and
stops at the first error of `w`.  A write error is met in `io.Copy` when the
body has bytes and in `Flush` when it has none; a read error of a body without
bytes comes first, `Flush` is then not reached.  Returned: the writer after
`Close` and the error the handler returns. -/
def CopyGzip (w : ResponseWriter) (gzipBytes : Bool → Bytes → Bytes) (b : Bytes)
    (readErr : Option Error) : ResponseWriter × Option Error :=
  let out := w.Write (gzipBytes readErr.isNone b)
  if b.isEmpty then
    match readErr with
    | some err => (out.1, some err)
    | none => out
  else
    match out.2 with
    | some err => (out.1, some err)
    | none => (out.1, readErr)

end ResponseWriter

/-- What a call of `PrerenderHandler` leaves: whether it panicked instead of
returning, the returned error, the writer and the `Prerender`. -/
structure HandlerResult where
  panicked : Bool := false
  err : Option Error
  w : ResponseWriter
  p : Prerender

/-- The backend request assembled by `PrerenderHandler` (prerender.go, lines
104-114) once `http.NewRequest` has accepted the URL. -/
def Prerender.backendRequest (env : Env) (p : Prerender) (r : Request) : OutRequest :=
  let reqHeader := Header.empty
  let reqHeader :=
    if p.Options.Token ≠ "" then reqHeader.Set "X-Prerender-Token" p.Options.Token
    else reqHeader
  let reqHeader := reqHeader.Set "User-Agent" (r.Header.Get "User-Agent")
  let reqHeader := reqHeader.Set "Content-Type" (r.Header.Get "Content-Type")
  let reqHeader := reqHeader.Set "Accept-Encoding" "gzip"
  { Method := "GET", URL := (p.buildAPIURL env r).1, Header := reqHeader }

/-- Method `PrerenderHandler` (prerender.go, lines 103-163). -/
def Prerender.PrerenderHandler (env : Env) (p : Prerender) (w : ResponseWriter) (r : Request) :
    HandlerResult :=
  let apiURL := (p.buildAPIURL env r).1
  let req := p.backendRequest env r
  let p := (p.buildAPIURL env r).2
  match env.parseErr apiURL with
  | some err => { err := some err, w := w, p := p }
  | none =>
    match env.Do req with
    | Except.error err => { err := some err, w := w, p := p }
    | Except.ok res =>
      -- `err` is the variable assigned by `Do`, nil on this path
      let err : Option Error := none
      if 500 ≤ res.StatusCode ∧ res.StatusCode ≤ 511 then { err := err, w := w, p := p }
      else
        let w := w.HeaderSet "Content-Type" (res.Header.Get "Content-Type")
        let isGzipAcceptEncoding := strings.Contains (r.Header.Get "Accept-Encoding") "gzip"
        let isGzipContentEncoding := strings.Contains (res.Header.Get "Content-Encoding") "gzip"
        if isGzipAcceptEncoding && !isGzipContentEncoding then
          let w := w.HeaderSet "Content-Encoding" "gzip"
          match w.WriteHeader res.StatusCode with
          | none => { panicked := true, err := none, w := w, p := p }
          | some w =>
            let out := w.CopyGzip env.gzipBytes res.Body res.BodyErr
            { err := out.2, w := out.1, p := p }
        else if !isGzipAcceptEncoding && isGzipContentEncoding then
          match w.WriteHeader res.StatusCode with
          | none => { panicked := true, err := none, w := w, p := p }
          | some w =>
            let gz := env.gunzipBytes res.Body res.BodyErr
            let out := w.Copy gz.1 gz.2
            { err := out.2, w := out.1, p := p }
        else
          let w := w.HeaderSet "Content-Encoding" (res.Header.Get "Content-Encoding")
          match w.WriteHeader res.StatusCode with
          | none => { panicked := true, err := none, w := w, p := p }
          | some w =>
            let out := w.Copy res.Body res.BodyErr
            { err := out.2, w := out.1, p := p }

/-- Method `Handle` (prerender.go, lines 48-59): the effect of the returned handler on
the writer, `next` being the effect of the wrapped handler; the third component
tells whether the handler panicked, in which case `next` is not reached. -/
def Prerender.Handle (env : Env) (p : Prerender) (next : ResponseWriter → Request → ResponseWriter)
    (w : ResponseWriter) (r : Request) : ResponseWriter × Prerender × Bool :=
  if !p.ShouldPrerender env r then (next w r, p, false)
  else if (p.PrerenderHandler env w r).panicked then
    ((p.PrerenderHandler env w r).w, (p.PrerenderHandler env w r).p, true)
  else
    match (p.PrerenderHandler env w r).err with
    | some _ => (next (p.PrerenderHandler env w r).w r, (p.PrerenderHandler env w r).p, false)
    | none => ((p.PrerenderHandler env w r).w, (p.PrerenderHandler env w r).p, false)

/-- Modelled from the spec: the table `crawlerUserAgents` is declared outside
`prerender.go`; these are the entries the specification names. -/
def sampleCrawlerUserAgents : List String :=
  ["googlebot", "bingbot", "facebookexternalhit"]

/-- Modelled from the spec: the table `extensionsToIgnore` is declared outside
`prerender.go`; these are the entries the specification names. -/
def sampleExtensionsToIgnore : List String :=
  [".js", ".css", ".png", ".pdf"]

/-- An environment for evaluating examples: the sample tables, ASCII
lower-casing and identity escaping (both exact on the ASCII letters, digits and
`/ . - _` of the examples), a backend answering every request with `res`, and a
toy codec that prefixes the byte 31.  No example URL carries a `RawPath`. -/
def sampleEnv (res : Response) : Env where
  crawlerUserAgents := sampleCrawlerUserAgents
  extensionsToIgnore := sampleExtensionsToIgnore
  toLowerRune := Char.toLower
  escape := fun _ s => s
  parseErr := fun _ => none
  Do := fun _ => Except.ok res
  validRawPath := fun raw path => raw = path
  gzipBytes := fun _ b => 31 :: b
  gunzipBytes := fun b readErr =>
    match b with
    | 31 :: rest => (rest, readErr)
    | _ => ([], some "gzip: invalid header")

/-- A request with the given method, URL path, raw query and header pairs. -/
def mkRequest (method path rawQuery : String) (headers : List (String × String)) : Request where
  Method := method
  URL := { Path := path, RawQuery := rawQuery }
  Host := "example.com"
  Header := headers.foldl (fun h kv => Header.Set h kv.1 kv.2) Header.empty

/-- A backend response with an empty header and body. -/
def emptyResponse (status : Nat) : Response where
  StatusCode := status
  Header := Header.empty
  Body := []

/-- The default configuration of `NewOptions`, `https://service.prerender.io/`. -/
def defaultPrerender : Prerender where
  Options := { PrerenderURL := { Scheme := "https", Host := "service.prerender.io", Path := "/" },
               Token := "" }

/-! ## Wording of the specification and example inputs -/

/-- The wording of the specification, "contains `word` in any letter case":
some stretch of `s` is `word` up to the case of its ASCII letters. -/
def ContainsAnyCase (s word : String) : Prop :=
  ∃ g : List Char, g.map Char.toLower = word.data.map Char.toLower ∧ g <:+: s.data

/-- An absolute-form request `GET https://example.com/` without headers. -/
def absoluteFormRequest : Request where
  Method := "GET"
  URL := { Scheme := "https", Host := "example.com", Path := "/" }
  Host := "example.com"
  Header := Header.empty

/-- A configuration whose base URL `https://service.prerender.io` has no
trailing slash. -/
def noSlashPrerender : Prerender where
  Options := { PrerenderURL := { Scheme := "https", Host := "service.prerender.io" },
               Token := "secret" }

/-- A configuration whose base URL `http://prerender.local/render?x=1` carries a
query. -/
def queryPrerender : Prerender where
  Options := { PrerenderURL := { Scheme := "http", Host := "prerender.local", Path := "/render",
                                 RawQuery := "x=1" },
               Token := "" }

/-- The wording of the specification, "the body decoded according to its
Content-Encoding": gunzipped under `gzip`, as it is otherwise. -/
def decodeBody (env : Env) (contentEncoding : String) (body : Bytes) : Bytes × Option Error :=
  if contentEncoding = "gzip" then env.gunzipBytes body none else (body, none)

/-- The wording of the specification, "the client's Accept-Encoding contains
gzip". -/
def clientAcceptsGzip (r : Request) : Bool :=
  strings.Contains (r.Header.Get "Accept-Encoding") "gzip"

/-- A backend response with status 200, no headers and the body `hi`. -/
def plainResponse : Response where
  StatusCode := 200
  Header := Header.empty
  Body := [104, 105]

/-- A backend response with status 200, `Content-Encoding: gzip` and the body
`hi` in the toy codec of `sampleEnv`. -/
def gzipResponse : Response where
  StatusCode := 200
  Header := Header.empty.Set "Content-Encoding" "gzip"
  Body := [31, 104, 105]

/-! ## Lemmas on the string operations -/

theorem ToLower_eq_empty (f : Char → Char) (s : String) :
    strings.ToLower f s = "" ↔ s = "" := by
  constructor
  · intro h
    have h1 : (strings.ToLower f s).data = [] := by rw [h]
    have h2 : s.data = [] := by simpa [strings.ToLower] using h1
    exact String.ext h2
  · intro h
    subst h
    rfl

theorem containsChars_iff (s sub : List Char) :
    strings.containsChars s sub = true ↔ sub <:+: s := by
  induction s with
  | nil =>
    cases sub <;> simp [strings.containsChars]
  | cons c cs ih =>
    rw [strings.containsChars, Bool.or_eq_true, ih, List.isPrefixOf_iff_prefix,
      List.infix_cons_iff]

/-! ## The classifier -/

/-- C4: a request whose lower-cased URL string ends with the lower-cased form
of an entry of `extensionsToIgnore` is classified false, whatever its
User-Agent, `_escaped_fragment_` parameter and X-Bufferbot header. -/
theorem C4_ignored_extension_false (env : Env) (p : Prerender) (r : Request)
    (h : ∃ extension ∈ env.extensionsToIgnore,
      strings.HasSuffix (strings.ToLower env.toLowerRune (r.URL.String env))
        (strings.ToLower env.toLowerRune extension) = true) :
    p.ShouldPrerender env r = false := by
  have hany : env.extensionsToIgnore.any (fun extension =>
      strings.HasSuffix (strings.ToLower env.toLowerRune (r.URL.String env))
        (strings.ToLower env.toLowerRune extension)) = true :=
    List.any_eq_true.mpr h
  unfold Prerender.ShouldPrerender
  simp only [hany, if_true]
  split_ifs <;> rfl

/-- C4 at `GET /app.js` with User-Agent `Googlebot` and `.js` in the table. -/
theorem C4_ignored_extension_false_witness :
    (∃ extension ∈ (sampleEnv (emptyResponse 200)).extensionsToIgnore,
      strings.HasSuffix
        (strings.ToLower (sampleEnv (emptyResponse 200)).toLowerRune
          ((mkRequest "GET" "/app.js" "" [("User-Agent", "Googlebot")]).URL.String
            (sampleEnv (emptyResponse 200))))
        (strings.ToLower (sampleEnv (emptyResponse 200)).toLowerRune extension) = true) ∧
    defaultPrerender.ShouldPrerender (sampleEnv (emptyResponse 200))
      (mkRequest "GET" "/app.js" "" [("User-Agent", "Googlebot")]) = false :=
  ⟨⟨".js", by decide, by decide⟩,
    C4_ignored_extension_false (sampleEnv (emptyResponse 200)) defaultPrerender
      (mkRequest "GET" "/app.js" "" [("User-Agent", "Googlebot")]) ⟨".js", by decide, by decide⟩⟩

/-- C5: `ShouldPrerender` returns true only for a request with a non-empty
User-Agent, method GET or HEAD, and an empty X-Prerender header. -/
theorem C5_true_only_if_guards_pass (env : Env) (p : Prerender) (r : Request)
    (h : p.ShouldPrerender env r = true) :
    r.Header.Get "User-Agent" ≠ "" ∧ (r.Method = "GET" ∨ r.Method = "HEAD") ∧
      r.Header.Get "X-Prerender" = "" := by
  unfold Prerender.ShouldPrerender at h
  simp only [ToLower_eq_empty] at h
  by_cases hua : r.Header.Get "User-Agent" = ""
  · simp [hua] at h
  · by_cases hm : r.Method ≠ "GET" ∧ r.Method ≠ "HEAD"
    · simp [hua, hm] at h
    · by_cases hx : r.Header.Get "X-Prerender" ≠ ""
      · rw [if_neg hua, if_neg hm, if_pos hx] at h
        exact absurd h (by decide)
      · refine ⟨hua, ?_, not_not.mp hx⟩
        by_contra hc
        exact hm ⟨fun h1 => hc (Or.inl h1), fun h2 => hc (Or.inr h2)⟩

/-- C5 at `GET /` with User-Agent `Googlebot`. -/
theorem C5_true_only_if_guards_pass_witness :
    defaultPrerender.ShouldPrerender (sampleEnv (emptyResponse 200))
      (mkRequest "GET" "/" "" [("User-Agent", "Googlebot")]) = true ∧
    ((mkRequest "GET" "/" "" [("User-Agent", "Googlebot")]).Header.Get "User-Agent" ≠ "" ∧
      ((mkRequest "GET" "/" "" [("User-Agent", "Googlebot")]).Method = "GET" ∨
        (mkRequest "GET" "/" "" [("User-Agent", "Googlebot")]).Method = "HEAD") ∧
      (mkRequest "GET" "/" "" [("User-Agent", "Googlebot")]).Header.Get "X-Prerender" = "") :=
  ⟨by decide, C5_true_only_if_guards_pass (sampleEnv (emptyResponse 200)) defaultPrerender
    (mkRequest "GET" "/" "" [("User-Agent", "Googlebot")]) (by decide)⟩

theorem toLower_ascii (c : Char) (h : c.toLower.toNat < 128) : c.toNat < 128 := by
  by_cases hc : c.toNat ≥ 65 ∧ c.toNat ≤ 90
  · omega
  · have h1 : c.toLower = c := by
      unfold Char.toLower
      simp only [hc, if_false]
    rwa [h1] at h

theorem map_lower_googlebot (lower : Char → Char)
    (hascii : ∀ c : Char, c.toNat < 128 → lower c = c.toLower)
    (g : List Char) (hg : g.map Char.toLower = "googlebot".data) :
    (g.map lower).map lower = "googlebot".data := by
  have hsmall : ∀ d ∈ "googlebot".data, d.toNat < 128 := by decide
  have hg1 : g.map lower = "googlebot".data := by
    rw [← hg]
    apply List.map_congr_left
    intro c hc
    apply hascii
    apply toLower_ascii
    apply hsmall
    rw [← hg]
    exact List.mem_map_of_mem _ hc
  rw [hg1]
  have h2 : "googlebot".data.map lower = "googlebot".data.map Char.toLower :=
    List.map_congr_left (fun c hc => hascii c (hsmall c hc))
  rw [h2]
  decide

/-- C3 as stated fails: a POST request whose User-Agent is `Googlebot` and
whose path `/` ends with no ignored extension is classified false. -/
theorem C3_counterexample :
    ContainsAnyCase ((mkRequest "POST" "/" "" [("User-Agent", "Googlebot")]).Header.Get
        "User-Agent") "Googlebot" ∧
    "googlebot" ∈ (sampleEnv (emptyResponse 200)).crawlerUserAgents ∧
    (∀ extension ∈ (sampleEnv (emptyResponse 200)).extensionsToIgnore,
      strings.HasSuffix (mkRequest "POST" "/" "" [("User-Agent", "Googlebot")]).URL.Path
        extension = false) ∧
    defaultPrerender.ShouldPrerender (sampleEnv (emptyResponse 200))
      (mkRequest "POST" "/" "" [("User-Agent", "Googlebot")]) = false :=
  ⟨⟨"Googlebot".data, by decide, by decide⟩, by decide, by decide, by decide⟩

/-- C3, amended: a GET or HEAD request with an empty X-Prerender header whose
User-Agent contains `Googlebot` in any letter case, `googlebot` being an entry
of `crawlerUserAgents`, and whose lower-cased URL string ends with the
lower-cased form of no entry of `extensionsToIgnore`, is classified true
(`unicode.ToLower` lower-cases ASCII as `Char.toLower` does). -/
theorem C3_googlebot_true (env : Env) (p : Prerender) (r : Request)
    (hascii : ∀ c : Char, c.toNat < 128 → env.toLowerRune c = c.toLower)
    (hmethod : r.Method = "GET" ∨ r.Method = "HEAD")
    (hloop : r.Header.Get "X-Prerender" = "")
    (hua : ContainsAnyCase (r.Header.Get "User-Agent") "Googlebot")
    (hmem : "googlebot" ∈ env.crawlerUserAgents)
    (hext : ∀ extension ∈ env.extensionsToIgnore,
      strings.HasSuffix (strings.ToLower env.toLowerRune (r.URL.String env))
        (strings.ToLower env.toLowerRune extension) = false) :
    p.ShouldPrerender env r = true := by
  obtain ⟨g, hg, hstretch⟩ := hua
  have hg0 : g.map Char.toLower = "googlebot".data := by rw [hg]; decide
  have hne : ¬ strings.ToLower env.toLowerRune (r.Header.Get "User-Agent") = "" := by
    rw [ToLower_eq_empty]
    intro h0
    rw [h0] at hstretch
    have hnil : g = [] := List.eq_nil_of_infix_nil hstretch
    rw [hnil] at hg0
    exact absurd hg0 (by decide)
  have hm : ¬ (r.Method ≠ "GET" ∧ r.Method ≠ "HEAD") := by
    rintro ⟨h1, h2⟩
    rcases hmethod with h | h
    · exact h1 h
    · exact h2 h
  have hcrawler : env.crawlerUserAgents.any (fun crawlerUserAgent =>
      strings.Contains
        (strings.ToLower env.toLowerRune
          (strings.ToLower env.toLowerRune (r.Header.Get "User-Agent")))
        (strings.ToLower env.toLowerRune crawlerUserAgent)) = true := by
    refine List.any_eq_true.mpr ⟨"googlebot", hmem, ?_⟩
    unfold strings.Contains
    rw [containsChars_iff]
    have h1 : (strings.ToLower env.toLowerRune "googlebot").data = "googlebot".data := by
      have h2 : "googlebot".data.map env.toLowerRune = "googlebot".data.map Char.toLower :=
        List.map_congr_left (fun c hc => hascii c ((by decide :
          ∀ d ∈ "googlebot".data, d.toNat < 128) c hc))
      show "googlebot".data.map env.toLowerRune = "googlebot".data
      rw [h2]
      decide
    rw [h1, ← map_lower_googlebot env.toLowerRune hascii g hg0]
    exact (hstretch.map env.toLowerRune).map env.toLowerRune
  have hignore : env.extensionsToIgnore.any (fun extension =>
      strings.HasSuffix (strings.ToLower env.toLowerRune (r.URL.String env))
        (strings.ToLower env.toLowerRune extension)) = false := by
    rw [List.any_eq_false]
    intro extension hx
    rw [hext extension hx]
    exact Bool.false_ne_true
  unfold Prerender.ShouldPrerender
  simp only [hcrawler, hignore]
  rw [if_neg hne, if_neg hm, if_neg (not_not.mpr hloop)]
  simp

/-- C3, amended, at `GET /` with User-Agent `Googlebot`. -/
theorem C3_googlebot_true_witness :
    defaultPrerender.ShouldPrerender (sampleEnv (emptyResponse 200))
      (mkRequest "GET" "/" "" [("User-Agent", "Googlebot")]) = true :=
  C3_googlebot_true (sampleEnv (emptyResponse 200)) defaultPrerender
    (mkRequest "GET" "/" "" [("User-Agent", "Googlebot")])
    (fun _ _ => rfl) (Or.inl rfl) (by decide) ⟨"Googlebot".data, by decide, by decide⟩
    (by decide) (by decide)

/-- C2: on `GET /?_escaped_fragment_=` with User-Agent `Mozilla/5.0` and no
X-Prerender or X-Bufferbot header, `ShouldPrerender` returns false whenever the
User-Agent matches no crawler signature, whatever the tables are: the key is
present, but its value is empty and line 76 tests the value. -/
theorem C2_empty_escaped_fragment_false (env : Env) (p : Prerender)
    (hcrawler : env.crawlerUserAgents.any (fun crawlerUserAgent =>
      strings.Contains
        (strings.ToLower env.toLowerRune (strings.ToLower env.toLowerRune "Mozilla/5.0"))
        (strings.ToLower env.toLowerRune crawlerUserAgent)) = false) :
    p.ShouldPrerender env
      (mkRequest "GET" "/" "_escaped_fragment_=" [("User-Agent", "Mozilla/5.0")]) = false := by
  have hua : (mkRequest "GET" "/" "_escaped_fragment_=" [("User-Agent", "Mozilla/5.0")]).Header.Get
      "User-Agent" = "Mozilla/5.0" := by decide
  have hx : (mkRequest "GET" "/" "_escaped_fragment_=" [("User-Agent", "Mozilla/5.0")]).Header.Get
      "X-Prerender" = "" := by decide
  have hb : (mkRequest "GET" "/" "_escaped_fragment_=" [("User-Agent", "Mozilla/5.0")]).Header.Get
      "X-Bufferbot" = "" := by decide
  have hq : (mkRequest "GET" "/" "_escaped_fragment_=" [("User-Agent", "Mozilla/5.0")]).URL.QueryGet
      "_escaped_fragment_" = "" := by decide
  unfold Prerender.ShouldPrerender
  simp only [hua, hx, hb, hq, hcrawler]
  split_ifs <;> simp_all

/-- C2 evaluated with the tables named by the specification. -/
theorem C2_empty_escaped_fragment_false_witness :
    defaultPrerender.ShouldPrerender (sampleEnv (emptyResponse 200))
      (mkRequest "GET" "/" "_escaped_fragment_=" [("User-Agent", "Mozilla/5.0")]) = false :=
  C2_empty_escaped_fragment_false (sampleEnv (emptyResponse 200)) defaultPrerender (by decide)

/-! ## The renderer proxy -/

/-- C1: when the backend answers with a status in 500..511, `PrerenderHandler`
returns the nil `err` left by the successful `Do` and writes nothing, so for a
request classified true `Handle` does not invoke the next handler. -/
theorem C1_server_error_returns_nil (env : Env) (p : Prerender) (w : ResponseWriter)
    (r : Request) (res : Response)
    (hparse : env.parseErr (p.buildAPIURL env r).1 = none)
    (hdo : env.Do (p.backendRequest env r) = Except.ok res)
    (hstatus : 500 ≤ res.StatusCode ∧ res.StatusCode ≤ 511) :
    (p.PrerenderHandler env w r).err = none ∧ (p.PrerenderHandler env w r).w = w ∧
      (p.ShouldPrerender env r = true →
        ∀ next : ResponseWriter → Request → ResponseWriter, (p.Handle env next w r).1 = w) := by
  have hres : p.PrerenderHandler env w r =
      { err := none, w := w, p := (p.buildAPIURL env r).2 } := by
    unfold Prerender.PrerenderHandler
    simp only [hparse, hdo, hstatus, and_self, if_true]
  refine ⟨by rw [hres], by rw [hres], ?_⟩
  intro hshould next
  unfold Prerender.Handle
  simp only [hshould, hres]
  rfl

/-- C1 at a `Googlebot` request, classified true, answered with status 503. -/
theorem C1_server_error_returns_nil_witness :
    defaultPrerender.ShouldPrerender (sampleEnv (emptyResponse 503))
      (mkRequest "GET" "/" "" [("User-Agent", "Googlebot")]) = true ∧
    (defaultPrerender.PrerenderHandler (sampleEnv (emptyResponse 503)) ResponseWriter.fresh
      (mkRequest "GET" "/" "" [("User-Agent", "Googlebot")])).err = none ∧
    ∀ next : ResponseWriter → Request → ResponseWriter,
      (defaultPrerender.Handle (sampleEnv (emptyResponse 503)) next ResponseWriter.fresh
        (mkRequest "GET" "/" "" [("User-Agent", "Googlebot")])).1 = ResponseWriter.fresh :=
  have h := C1_server_error_returns_nil (sampleEnv (emptyResponse 503)) defaultPrerender
    ResponseWriter.fresh (mkRequest "GET" "/" "" [("User-Agent", "Googlebot")])
    (emptyResponse 503) rfl rfl (by decide)
  ⟨by decide, h.1, h.2.2 (by decide)⟩

/-! ## The backend URL -/

theorem splitChars_head (sep : Char) (l : List Char) :
    (strings.splitChars sep l).headD [] = l.takeWhile (fun c => c ≠ sep) := by
  induction l with
  | nil => rfl
  | cons c cs ih =>
    by_cases hc : c = sep
    · simp [strings.splitChars, hc]
    · rw [strings.splitChars, if_neg hc, List.takeWhile_cons_of_pos (by simpa using hc), ← ih]
      cases strings.splitChars sep cs <;> rfl

theorem Split_head (s : String) (sep : Char) :
    (strings.Split s sep).headD "" = String.mk (s.data.takeWhile (fun c => c ≠ sep)) := by
  unfold strings.Split
  rw [← splitChars_head]
  cases strings.splitChars sep s.data <;> rfl

/-- C7: with a non-empty X-Forwarded-Proto header, the protocol in the URL
built by `buildAPIURL` is the part of that header before its first comma,
whatever the CF-Visitor header and the scheme of the request URL are. -/
theorem C7_forwarded_proto_first_value (env : Env) (p : Prerender) (r : Request)
    (hfp : r.Header.Get "X-Forwarded-Proto" ≠ "") :
    (p.buildAPIURL env r).1 =
      (p.buildAPIURL env r).2.Options.PrerenderURL.String env ++
        String.mk ((r.Header.Get "X-Forwarded-Proto").data.takeWhile (fun c => c ≠ ',')) ++
        "://" ++ r.Host ++ r.URL.Path ++ "?" ++ r.URL.RawQuery := by
  unfold Prerender.buildAPIURL
  simp only [hfp, ne_eq, not_false_eq_true, if_true, Split_head]

/-- C7 at `X-Forwarded-Proto: https,http` next to a CF-Visitor header naming
`http`: the backend URL uses `https`. -/
theorem C7_forwarded_proto_first_value_witness :
    (defaultPrerender.buildAPIURL (sampleEnv (emptyResponse 200))
      (mkRequest "GET" "/a" "x=1"
        [("X-Forwarded-Proto", "https,http"), ("CF-Visitor", "\x7b\"scheme\":\"http\"\x7d")])).1 =
      "https://service.prerender.io/" ++ "https" ++ "://" ++ "example.com" ++ "/a" ++ "?" ++ "x=1" :=
  C7_forwarded_proto_first_value (sampleEnv (emptyResponse 200)) defaultPrerender
    (mkRequest "GET" "/a" "x=1"
      [("X-Forwarded-Proto", "https,http"), ("CF-Visitor", "\x7b\"scheme\":\"http\"\x7d")])
    (by decide)

/-- C8 as stated fails: a request with neither header whose URL carries the
scheme `https` gets the protocol `https`, not the default `http`. -/
theorem C8_counterexample :
    absoluteFormRequest.Header "Cf-Visitor" = none ∧
    absoluteFormRequest.Header "X-Forwarded-Proto" = none ∧
    (defaultPrerender.buildAPIURL (sampleEnv (emptyResponse 200)) absoluteFormRequest).1 =
      "https://service.prerender.io/" ++ "https" ++ "://" ++ "example.com" ++ "/" ++ "?" ++ "" ∧
    (defaultPrerender.buildAPIURL (sampleEnv (emptyResponse 200)) absoluteFormRequest).1 ≠
      "https://service.prerender.io/" ++ "http" ++ "://" ++ "example.com" ++ "/" ++ "?" ++ "" := by
  decide

/-- C8, amended: for a request with neither a CF-Visitor nor an
X-Forwarded-Proto value, the protocol in the URL built by `buildAPIURL` is the
scheme of the request URL, and the default `http` when that scheme is empty. -/
theorem C8_default_protocol (env : Env) (p : Prerender) (r : Request)
    (hcf : r.Header.Get "CF-Visitor" = "") (hfp : r.Header.Get "X-Forwarded-Proto" = "") :
    (p.buildAPIURL env r).1 =
      (p.buildAPIURL env r).2.Options.PrerenderURL.String env ++
        (if r.URL.Scheme = "" then "http" else r.URL.Scheme) ++
        "://" ++ r.Host ++ r.URL.Path ++ "?" ++ r.URL.RawQuery := by
  have hlen : (r.URL.Scheme.data.length = 0) = (r.URL.Scheme = "") := by
    apply propext
    constructor
    · intro h
      exact String.ext (List.length_eq_zero.mp h)
    · intro h
      rw [h]
      rfl
  unfold Prerender.buildAPIURL
  simp only [hcf, hfp, ne_eq, not_true_eq_false, if_false, hlen]

/-- C8, amended, at `GET /a?x=1` without headers: the protocol is `http`. -/
theorem C8_default_protocol_witness :
    (defaultPrerender.buildAPIURL (sampleEnv (emptyResponse 200))
      (mkRequest "GET" "/a" "x=1" [])).1 =
      "https://service.prerender.io/" ++ "http" ++ "://" ++ "example.com" ++ "/a" ++ "?" ++ "x=1" :=
  C8_default_protocol (sampleEnv (emptyResponse 200)) defaultPrerender
    (mkRequest "GET" "/a" "x=1" []) (by decide) (by decide)

/-! ## The configuration across a call -/

theorem PrerenderHandler_p (env : Env) (p : Prerender) (w : ResponseWriter) (r : Request) :
    (p.PrerenderHandler env w r).p = (p.buildAPIURL env r).2 := by
  unfold Prerender.PrerenderHandler
  simp only
  split
  · rfl
  · split
    · rfl
    · split_ifs
      · rfl
      · split <;> rfl
      · split <;> rfl
      · split <;> rfl

/-- C9 as stated fails: for the base URL `https://service.prerender.io` the
configuration after `buildAPIURL`, and after `PrerenderHandler`, differs from
the one before; `PrerenderURL.Path` has become `/`. -/
theorem C9_counterexample :
    (noSlashPrerender.buildAPIURL (sampleEnv (emptyResponse 200))
        (mkRequest "GET" "/" "" [("User-Agent", "Googlebot")])).2 ≠ noSlashPrerender ∧
    (noSlashPrerender.PrerenderHandler (sampleEnv (emptyResponse 200)) ResponseWriter.fresh
        (mkRequest "GET" "/" "" [("User-Agent", "Googlebot")])).p ≠ noSlashPrerender ∧
    noSlashPrerender.Options.PrerenderURL.Path = "" ∧
    (noSlashPrerender.buildAPIURL (sampleEnv (emptyResponse 200))
        (mkRequest "GET" "/" "" [("User-Agent", "Googlebot")])).2.Options.PrerenderURL.Path
      = "/" := by
  decide

/-- C9, amended: `buildAPIURL`, and hence `PrerenderHandler`, never changes the
token; it leaves the whole configuration as it was when the base URL string
already ends with `/`; and for a base URL without query and fragment whose
string lacks the trailing `/` it changes `PrerenderURL.Path` alone, appending
`/` to it. -/
theorem C9_configuration_frame (env : Env) (p : Prerender) (w : ResponseWriter) (r : Request) :
    ((p.buildAPIURL env r).2.Options.Token = p.Options.Token ∧
      (p.PrerenderHandler env w r).p.Options.Token = p.Options.Token) ∧
    (strings.HasSuffix (p.Options.PrerenderURL.String env) "/" = true →
      (p.buildAPIURL env r).2 = p ∧ (p.PrerenderHandler env w r).p = p) ∧
    (p.Options.PrerenderURL.ForceQuery = false → p.Options.PrerenderURL.RawQuery = "" →
      p.Options.PrerenderURL.Fragment = "" →
      strings.HasSuffix (p.Options.PrerenderURL.String env) "/" = false →
      (p.buildAPIURL env r).2 =
          { Options := { PrerenderURL := { p.Options.PrerenderURL with
                                           Path := p.Options.PrerenderURL.Path ++ "/" },
                         Token := p.Options.Token } } ∧
        (p.PrerenderHandler env w r).p =
          { Options := { PrerenderURL := { p.Options.PrerenderURL with
                                           Path := p.Options.PrerenderURL.Path ++ "/" },
                         Token := p.Options.Token } }) := by
  have hkeep : strings.HasSuffix (p.Options.PrerenderURL.String env) "/" = true →
      (p.buildAPIURL env r).2 = p := by
    intro h
    unfold Prerender.buildAPIURL
    simp [h]
  have hadd : strings.HasSuffix (p.Options.PrerenderURL.String env) "/" = false →
      (p.buildAPIURL env r).2 =
        { Options := { PrerenderURL := { p.Options.PrerenderURL with
                                         Path := p.Options.PrerenderURL.Path ++ "/" },
                       Token := p.Options.Token } } := by
    intro h
    unfold Prerender.buildAPIURL
    simp [h]
  refine ⟨⟨rfl, ?_⟩, ?_, ?_⟩
  · rw [PrerenderHandler_p]
    rfl
  · intro h
    exact ⟨hkeep h, by rw [PrerenderHandler_p, hkeep h]⟩
  · intro _ _ _ h
    exact ⟨hadd h, by rw [PrerenderHandler_p, hadd h]⟩

/-- C9, amended, at the base URLs `https://service.prerender.io/`, left as it
is, and `https://service.prerender.io`, whose path becomes `/`. -/
theorem C9_configuration_frame_witness :
    (defaultPrerender.PrerenderHandler (sampleEnv (emptyResponse 200)) ResponseWriter.fresh
        (mkRequest "GET" "/" "" [("User-Agent", "Googlebot")])).p = defaultPrerender ∧
    (noSlashPrerender.PrerenderHandler (sampleEnv (emptyResponse 200)) ResponseWriter.fresh
        (mkRequest "GET" "/" "" [("User-Agent", "Googlebot")])).p =
      { Options := { PrerenderURL := { Scheme := "https", Host := "service.prerender.io",
                                       Path := "/" },
                     Token := "secret" } } :=
  ⟨((C9_configuration_frame (sampleEnv (emptyResponse 200)) defaultPrerender
      ResponseWriter.fresh (mkRequest "GET" "/" "" [("User-Agent", "Googlebot")])).2.1
      (by decide)).2,
    ((C9_configuration_frame (sampleEnv (emptyResponse 200)) noSlashPrerender
      ResponseWriter.fresh (mkRequest "GET" "/" "" [("User-Agent", "Googlebot")])).2.2
      rfl rfl rfl (by decide)).2⟩

theorem HasSuffix_append_slash (a b : String) :
    strings.HasSuffix (a ++ (b ++ "/") ++ "" ++ "") "/" = true := by
  unfold strings.HasSuffix
  rw [List.isSuffixOf_iff_suffix]
  refine ⟨a.data ++ b.data, ?_⟩
  simp [String.data_append]

theorem append_slash_ne_star (s : String) : s ++ "/" ≠ "*" := by
  intro h
  have h1 : (s ++ "/").data = "*".data := by rw [h]
  rw [String.data_append] at h1
  cases hs : s.data with
  | nil => rw [hs] at h1; exact absurd h1 (by decide)
  | cons c cs =>
    rw [hs] at h1
    have h2 := congrArg List.length h1
    simp at h2

/-- For a base URL without query and fragment, the string form after
`buildAPIURL` ends with `/` (escaping leaves a trailing `/` in place). -/
theorem buildAPIURL_base_ends_with_slash (env : Env) (p : Prerender) (r : Request)
    (hraw : p.Options.PrerenderURL.RawPath = "")
    (hq : p.Options.PrerenderURL.RawQuery = "") (hforce : p.Options.PrerenderURL.ForceQuery = false)
    (hfr : p.Options.PrerenderURL.Fragment = "")
    (hesc : ∀ s, env.escape encoding.encodePath (s ++ "/")
      = env.escape encoding.encodePath s ++ "/") :
    strings.HasSuffix ((p.buildAPIURL env r).2.Options.PrerenderURL.String env) "/" = true := by
  by_cases h : strings.HasSuffix (p.Options.PrerenderURL.String env) "/" = true
  · have hkeep : (p.buildAPIURL env r).2 = p := by
      unfold Prerender.buildAPIURL
      simp [h]
    rw [hkeep]
    exact h
  · have hpath : (p.buildAPIURL env r).2.Options.PrerenderURL =
        { p.Options.PrerenderURL with Path := p.Options.PrerenderURL.Path ++ "/" } := by
      unfold Prerender.buildAPIURL
      simp [h]
    rw [hpath]
    unfold URL.String URL.EscapedPath
    simp only [hraw, hq, hforce, hfr, append_slash_ne_star, hesc, if_false, ne_eq,
      not_true_eq_false, Bool.false_eq_true, or_self, false_and]
    exact HasSuffix_append_slash _ _

/-- C10: for the base URL `http://prerender.local/render?x=1` the slash goes to
the path, before the query, so the part of the built URL preceding the
protocol is `http://prerender.local/render/?x=1` and does not end with `/`;
a second call appends another slash. -/
theorem C10_base_with_query_no_trailing_slash :
    (queryPrerender.buildAPIURL (sampleEnv (emptyResponse 200)) (mkRequest "GET" "/a" "" [])).1
      = "http://prerender.local/render/?x=1" ++ "http" ++ "://" ++ "example.com" ++ "/a" ++ "?" ++ "" ∧
    strings.HasSuffix "http://prerender.local/render/?x=1" "/" = false ∧
    ((queryPrerender.buildAPIURL (sampleEnv (emptyResponse 200))
        (mkRequest "GET" "/a" "" [])).2.buildAPIURL (sampleEnv (emptyResponse 200))
        (mkRequest "GET" "/a" "" [])).1
      = "http://prerender.local/render//?x=1" ++ "http" ++ "://" ++ "example.com" ++ "/a" ++ "?" ++ "" := by
  decide

/-! ## Compression transcoding -/

/-- C6 as stated fails.  When the client sends no Accept-Encoding and the
backend no Content-Encoding, line 156 sets the outgoing Content-Encoding, to
the empty string; the header is not left unset.  Besides, for a backend status
304 and a client accepting gzip the writer refuses the gzip header, the handler
returns `ErrBodyNotAllowed` and the empty body written is no gzip stream; for a
backend status 99 `WriteHeader` panics and nothing is sent; and on a failed
connection the body is not relayed. -/
theorem C6_counterexample :
    ((mkRequest "GET" "/" "" [("User-Agent", "Googlebot")]).Header "Accept-Encoding" = none ∧
      clientAcceptsGzip (mkRequest "GET" "/" "" [("User-Agent", "Googlebot")]) = false ∧
      plainResponse.Header "Content-Encoding" = none ∧
      (defaultPrerender.PrerenderHandler (sampleEnv plainResponse) ResponseWriter.fresh
        (mkRequest "GET" "/" "" [("User-Agent", "Googlebot")])).w.sentHeader "Content-Encoding"
        = some [""] ∧
      (defaultPrerender.PrerenderHandler (sampleEnv plainResponse) ResponseWriter.fresh
        (mkRequest "GET" "/" "" [("User-Agent", "Googlebot")])).w.sentHeader "Content-Encoding"
        ≠ none) ∧
    ((defaultPrerender.PrerenderHandler (sampleEnv (emptyResponse 304)) ResponseWriter.fresh
        (mkRequest "GET" "/" "" [("Accept-Encoding", "gzip")])).err = some ErrBodyNotAllowed ∧
      decodeBody (sampleEnv (emptyResponse 304))
          ((defaultPrerender.PrerenderHandler (sampleEnv (emptyResponse 304))
            ResponseWriter.fresh
            (mkRequest "GET" "/" "" [("Accept-Encoding", "gzip")])).w.sentHeader.Get
              "Content-Encoding")
          (defaultPrerender.PrerenderHandler (sampleEnv (emptyResponse 304))
            ResponseWriter.fresh (mkRequest "GET" "/" "" [("Accept-Encoding", "gzip")])).w.body
        ≠ decodeBody (sampleEnv (emptyResponse 304))
            ((emptyResponse 304).Header.Get "Content-Encoding") (emptyResponse 304).Body) ∧
    ((defaultPrerender.PrerenderHandler (sampleEnv (emptyResponse 99)) ResponseWriter.fresh
        (mkRequest "GET" "/" "" [("Accept-Encoding", "gzip")])).panicked = true ∧
      (defaultPrerender.PrerenderHandler (sampleEnv (emptyResponse 99)) ResponseWriter.fresh
        (mkRequest "GET" "/" "" [("Accept-Encoding", "gzip")])).w.sentHeader "Content-Encoding"
        = none) ∧
    ((defaultPrerender.PrerenderHandler (sampleEnv plainResponse)
        { ResponseWriter.fresh with connErr := some "write: broken pipe" }
        (mkRequest "GET" "/" "" [("User-Agent", "Googlebot")])).w.body = [] ∧
      plainResponse.Body ≠ []) := by
  decide

theorem Get_of_none (h : Header) (hn : h "Content-Encoding" = none) :
    h.Get "Content-Encoding" = "" := by
  have hkey : CanonicalMIMEHeaderKey "Content-Encoding" = "Content-Encoding" := by decide
  unfold Header.Get
  rw [hkey, hn]

theorem Get_of_single (h : Header) (v : String) (hs : h "Content-Encoding" = some [v]) :
    h.Get "Content-Encoding" = v := by
  have hkey : CanonicalMIMEHeaderKey "Content-Encoding" = "Content-Encoding" := by decide
  unfold Header.Get
  rw [hkey, hs]

theorem Set_same (h : Header) (v : String) :
    (h.Set "Content-Encoding" v) "Content-Encoding" = some [v] := by
  have hkey : CanonicalMIMEHeaderKey "Content-Encoding" = "Content-Encoding" := by decide
  unfold Header.Set
  rw [hkey, if_pos rfl]

theorem Set_other (h : Header) (v : String) :
    (h.Set "Content-Type" v) "Content-Encoding" = h "Content-Encoding" := by
  have hkey : CanonicalMIMEHeaderKey "Content-Type" = "Content-Type" := by decide
  unfold Header.Set
  rw [hkey, if_neg (by decide)]

theorem bodyAllowedForStatus_of (status : Nat) (h200 : 200 ≤ status) (h204 : status ≠ 204)
    (h304 : status ≠ 304) : bodyAllowedForStatus status = true := by
  unfold bodyAllowedForStatus
  rw [if_neg (by omega), if_neg h204, if_neg h304]

theorem WriteHeader_final (w : ResponseWriter) (code : Nat) (hw : w.wroteHeader = false)
    (h200 : 200 ≤ code) (h999 : code ≤ 999) :
    w.WriteHeader code =
      some { w with wroteHeader := true, status := code, sentHeader := w.header } := by
  unfold ResponseWriter.WriteHeader
  rw [if_neg (by simp [hw]), if_neg (by omega), if_neg (by omega)]

theorem Write_accepted (w : ResponseWriter) (b : Bytes) (hw : w.wroteHeader = true)
    (hs : bodyAllowedForStatus w.status = true) (hc : w.connErr = none) :
    w.Write b = ({ w with body := w.body ++ b }, none) := by
  obtain ⟨header, wrote, status, sent, info, body, conn⟩ := w
  simp only at hw hs hc
  subst hw hc
  unfold ResponseWriter.Write
  by_cases hb : b.isEmpty = true
  · have : b = [] := List.isEmpty_iff.mp hb
    subst this
    simp
  · simp [hb, hs]

theorem Copy_accepted (w : ResponseWriter) (b : Bytes) (hw : w.wroteHeader = true)
    (hs : bodyAllowedForStatus w.status = true) (hc : w.connErr = none) :
    w.Copy b none = ({ w with body := w.body ++ b }, none) := by
  unfold ResponseWriter.Copy
  rw [Write_accepted w b hw hs hc]
  by_cases hb : b.isEmpty = true
  · have : b = [] := List.isEmpty_iff.mp hb
    subst this
    simp
  · rw [if_neg hb]

theorem CopyGzip_accepted (w : ResponseWriter) (g : Bool → Bytes → Bytes) (b : Bytes)
    (hw : w.wroteHeader = true) (hs : bodyAllowedForStatus w.status = true)
    (hc : w.connErr = none) :
    w.CopyGzip g b none = ({ w with body := w.body ++ g true b }, none) := by
  unfold ResponseWriter.CopyGzip
  simp only [Option.isNone_none]
  rw [Write_accepted w (g true b) hw hs hc]
  by_cases hb : b.isEmpty = true
  · rw [if_pos hb]
  · rw [if_neg hb]

/-- C6, amended: for a backend response, read in full, whose status lies in
200..999 outside 500..511 and is neither 204 nor 304, and whose Content-Encoding
is absent, or is `gzip` over a well-formed gzip body, written to a fresh writer
on a working connection: the outgoing Content-Encoding is `gzip` when the client
accepts gzip; when it does not, the header is unset if the backend body was gzip
and set to the empty string if the backend sent none; the outgoing body decoded
by the outgoing Content-Encoding equals the backend body decoded by the backend
one; and when client and backend agree the body is relayed unchanged (given
`gunzip (gzip b) = b`). -/
theorem C6_transcoding (env : Env) (p : Prerender) (r : Request) (res : Response)
    (hparse : env.parseErr (p.buildAPIURL env r).1 = none)
    (hdo : env.Do (p.backendRequest env r) = Except.ok res)
    (hread : res.BodyErr = none)
    (h200 : 200 ≤ res.StatusCode) (h999 : res.StatusCode ≤ 999)
    (h204 : res.StatusCode ≠ 204) (h304 : res.StatusCode ≠ 304)
    (hstatus : ¬ (500 ≤ res.StatusCode ∧ res.StatusCode ≤ 511))
    (hce : res.Header "Content-Encoding" = none ∨
      (res.Header "Content-Encoding" = some ["gzip"] ∧
        ∃ payload, env.gunzipBytes res.Body none = (payload, none)))
    (hcodec : ∀ b, env.gunzipBytes (env.gzipBytes true b) none = (b, none)) :
    (clientAcceptsGzip r = true →
      (p.PrerenderHandler env ResponseWriter.fresh r).w.sentHeader "Content-Encoding"
        = some ["gzip"]) ∧
    (clientAcceptsGzip r = false → res.Header "Content-Encoding" = some ["gzip"] →
      (p.PrerenderHandler env ResponseWriter.fresh r).w.sentHeader "Content-Encoding" = none) ∧
    (clientAcceptsGzip r = false → res.Header "Content-Encoding" = none →
      (p.PrerenderHandler env ResponseWriter.fresh r).w.sentHeader "Content-Encoding"
        = some [""]) ∧
    decodeBody env
        ((p.PrerenderHandler env ResponseWriter.fresh r).w.sentHeader.Get "Content-Encoding")
        (p.PrerenderHandler env ResponseWriter.fresh r).w.body
      = decodeBody env (res.Header.Get "Content-Encoding") res.Body ∧
    (clientAcceptsGzip r = strings.Contains (res.Header.Get "Content-Encoding") "gzip" →
      (p.PrerenderHandler env ResponseWriter.fresh r).w.body = res.Body) := by
  have hallowed : bodyAllowedForStatus res.StatusCode = true :=
    bodyAllowedForStatus_of _ h200 h204 h304
  rcases hce with hnone | ⟨hgz, payload, hpay⟩
  · have hget : res.Header.Get "Content-Encoding" = "" := Get_of_none _ hnone
    have hc : strings.Contains "" "gzip" = false := by decide
    cases hacc : clientAcceptsGzip r
    · have hacc1 : strings.Contains (r.Header.Get "Accept-Encoding") "gzip" = false := hacc
      have hres : (p.PrerenderHandler env ResponseWriter.fresh r).w =
          { header := Header.Set (Header.Set Header.empty "Content-Type" (res.Header.Get "Content-Type")) "Content-Encoding" "",
            wroteHeader := true, status := res.StatusCode,
            sentHeader := Header.Set (Header.Set Header.empty "Content-Type" (res.Header.Get "Content-Type")) "Content-Encoding" "",
            informational := [], body := res.Body, connErr := none } := by
        unfold Prerender.PrerenderHandler
        simp only [hparse, hdo, hstatus, hget, hc, hacc1, hread, if_false, Bool.false_and,
          Bool.not_false, Bool.and_false, Bool.false_eq_true]
        rw [WriteHeader_final _ _ rfl h200 h999]
        simp only
        rw [Copy_accepted _ _ rfl hallowed rfl]
        rfl
      rw [hres]
      refine ⟨?_, ?_, ?_, ?_, ?_⟩
      · intro h; exact absurd h (by decide)
      · intro _ h; rw [hnone] at h; exact absurd h (by decide)
      · intro _ _
        exact Set_same (Header.Set Header.empty "Content-Type" (res.Header.Get "Content-Type")) _
      · have h1 : Header.Get (Header.Set (Header.Set Header.empty "Content-Type" (res.Header.Get "Content-Type")) "Content-Encoding" "") "Content-Encoding" = "" :=
          Get_of_single _ _ (Set_same (Header.Set Header.empty "Content-Type" (res.Header.Get "Content-Type")) _)
        simp only [h1, hget]
      · intro _
        rfl
    · have hacc1 : strings.Contains (r.Header.Get "Accept-Encoding") "gzip" = true := hacc
      have hres : (p.PrerenderHandler env ResponseWriter.fresh r).w =
          { header := Header.Set (Header.Set Header.empty "Content-Type" (res.Header.Get "Content-Type")) "Content-Encoding" "gzip",
            wroteHeader := true, status := res.StatusCode,
            sentHeader := Header.Set (Header.Set Header.empty "Content-Type" (res.Header.Get "Content-Type")) "Content-Encoding" "gzip",
            informational := [], body := env.gzipBytes true res.Body, connErr := none } := by
        unfold Prerender.PrerenderHandler
        simp only [hparse, hdo, hstatus, hget, hc, hacc1, hread, if_false, Bool.true_and,
          Bool.not_false, if_true]
        rw [WriteHeader_final _ _ rfl h200 h999]
        simp only
        rw [CopyGzip_accepted _ _ _ rfl hallowed rfl]
        rfl
      rw [hres]
      refine ⟨?_, ?_, ?_, ?_, ?_⟩
      · intro _
        exact Set_same (Header.Set Header.empty "Content-Type" (res.Header.Get "Content-Type")) _
      · intro h; exact absurd h (by decide)
      · intro h; exact absurd h (by decide)
      · have h1 : Header.Get (Header.Set (Header.Set Header.empty "Content-Type" (res.Header.Get "Content-Type")) "Content-Encoding" "gzip") "Content-Encoding"
            = "gzip" :=
          Get_of_single _ _ (Set_same (Header.Set Header.empty "Content-Type" (res.Header.Get "Content-Type")) _)
        simp only [h1, hget]
        unfold decodeBody
        rw [if_pos rfl, if_neg (by decide), hcodec]
      · intro h
        rw [hget, hc] at h
        exact absurd h (by decide)
  · have hget : res.Header.Get "Content-Encoding" = "gzip" := Get_of_single _ _ hgz
    have hc : strings.Contains "gzip" "gzip" = true := by decide
    cases hacc : clientAcceptsGzip r
    · have hacc1 : strings.Contains (r.Header.Get "Accept-Encoding") "gzip" = false := hacc
      have hres : (p.PrerenderHandler env ResponseWriter.fresh r).w =
          { header := (Header.Set Header.empty "Content-Type" (res.Header.Get "Content-Type")),
            wroteHeader := true, status := res.StatusCode,
            sentHeader := (Header.Set Header.empty "Content-Type" (res.Header.Get "Content-Type")),
            informational := [], body := payload, connErr := none } := by
        unfold Prerender.PrerenderHandler
        simp only [hparse, hdo, hstatus, hget, hc, hacc1, hread, hpay, if_false, Bool.false_and,
          Bool.not_false, Bool.not_true, Bool.true_and, Bool.and_true, Bool.false_eq_true,
          if_true]
        rw [WriteHeader_final _ _ rfl h200 h999]
        simp only
        rw [Copy_accepted _ _ rfl hallowed rfl]
        rfl
      rw [hres]
      refine ⟨?_, ?_, ?_, ?_, ?_⟩
      · intro h; exact absurd h (by decide)
      · intro _ _
        exact Set_other Header.empty (res.Header.Get "Content-Type")
      · intro _ h; rw [hgz] at h; exact absurd h (by decide)
      · have h1 : Header.Get (Header.Set Header.empty "Content-Type" (res.Header.Get "Content-Type")) "Content-Encoding" = "" :=
          Get_of_none _ (Set_other Header.empty (res.Header.Get "Content-Type"))
        simp only [h1, hget]
        unfold decodeBody
        rw [if_neg (by decide), if_pos rfl, hpay]
      · intro h
        rw [hget, hc] at h
        exact absurd h (by decide)
    · have hacc1 : strings.Contains (r.Header.Get "Accept-Encoding") "gzip" = true := hacc
      have hres : (p.PrerenderHandler env ResponseWriter.fresh r).w =
          { header := Header.Set (Header.Set Header.empty "Content-Type" (res.Header.Get "Content-Type")) "Content-Encoding" "gzip",
            wroteHeader := true, status := res.StatusCode,
            sentHeader := Header.Set (Header.Set Header.empty "Content-Type" (res.Header.Get "Content-Type")) "Content-Encoding" "gzip",
            informational := [], body := res.Body, connErr := none } := by
        unfold Prerender.PrerenderHandler
        simp only [hparse, hdo, hstatus, hget, hc, hacc1, hread, if_false, Bool.true_and,
          Bool.not_true, Bool.false_eq_true, Bool.and_false, Bool.false_and]
        rw [WriteHeader_final _ _ rfl h200 h999]
        simp only
        rw [Copy_accepted _ _ rfl hallowed rfl]
        rfl
      rw [hres]
      refine ⟨?_, ?_, ?_, ?_, ?_⟩
      · intro _
        exact Set_same (Header.Set Header.empty "Content-Type" (res.Header.Get "Content-Type")) _
      · intro h; exact absurd h (by decide)
      · intro h; exact absurd h (by decide)
      · have h1 : Header.Get (Header.Set (Header.Set Header.empty "Content-Type" (res.Header.Get "Content-Type")) "Content-Encoding" "gzip") "Content-Encoding"
            = "gzip" :=
          Get_of_single _ _ (Set_same (Header.Set Header.empty "Content-Type" (res.Header.Get "Content-Type")) _)
        simp only [h1, hget]
      · intro _
        rfl

/-- C6, amended, at a gzip backend body relayed with status 200 to a client
that sends no Accept-Encoding: the body is gunzipped and no Content-Encoding is
set. -/
theorem C6_transcoding_witness :
    (defaultPrerender.PrerenderHandler (sampleEnv gzipResponse) ResponseWriter.fresh
      (mkRequest "GET" "/" "" [("User-Agent", "Googlebot")])).w.sentHeader "Content-Encoding"
      = none ∧
    decodeBody (sampleEnv gzipResponse)
        ((defaultPrerender.PrerenderHandler (sampleEnv gzipResponse) ResponseWriter.fresh
          (mkRequest "GET" "/" "" [("User-Agent", "Googlebot")])).w.sentHeader.Get
            "Content-Encoding")
        (defaultPrerender.PrerenderHandler (sampleEnv gzipResponse) ResponseWriter.fresh
          (mkRequest "GET" "/" "" [("User-Agent", "Googlebot")])).w.body
      = decodeBody (sampleEnv gzipResponse) (gzipResponse.Header.Get "Content-Encoding")
          gzipResponse.Body :=
  have h := C6_transcoding (sampleEnv gzipResponse) defaultPrerender
    (mkRequest "GET" "/" "" [("User-Agent", "Googlebot")]) gzipResponse rfl rfl rfl
    (by decide) (by decide) (by decide) (by decide) (by decide)
    (Or.inr ⟨by decide, [104, 105], rfl⟩) (fun _ => rfl)
  ⟨h.2.1 (by decide) (by decide), h.2.2.2.1⟩

end PrerenderGo
